import Mathlib

/-!
Verification of the goldsight web application against its specification.

The development shallowly embeds the Python source of the repository:

* goldsight/components/navbar.py  (NavbarState active-route predicates)
* goldsight/goldsight.py          (route registration)
* goldsight/components/chapter_nav.py (chapter_progress)
* goldsight/pages/eda.py          (load_plotly_chart, dataset_overview)
* goldsight/pages/modeling.py     (comparison_table_section, metric_card)

Pure helper functions are Lean functions; the file system and the outcome of
fallible library calls (open, json.load, pd.read_csv) are explicit parameters;
Python exceptions are modelled with Option/Except.  Machine floats are
modelled as exact rationals.
-/

/-- Arguments of a reflex rx.color(color, shade) call, rendered as the CSS
variable string that reflex produces. -/
def rxColor (c : String) (n : Nat) : String :=
  "var(--" ++ c ++ "-" ++ toString n ++ ")"

/-- Containment of one string in another, as used by the spec phrases
"contains the chart name" and "containing the exception text". -/
def strContains (s sub : String) : Prop :=
  sub.data <:+: s.data

instance (s sub : String) : Decidable (strContains s sub) :=
  List.decidableInfix sub.data s.data

/- ----------------------------------------------------------------
   goldsight/components/navbar.py : NavbarState
   ---------------------------------------------------------------- -/

/-- NavbarState.current_route: the router path is a possibly missing string
(None is modelled by Option.none); the method returns the path when it is
truthy and "/" when it is None or empty. -/
def current_route (path : Option String) : String :=
  match path with
  | none => "/"
  | some p => if p = "" then "/" else p

/-- NavbarState.is_home_active. -/
def is_home_active (path : Option String) : Bool :=
  current_route path == "/"

/-- NavbarState.is_data_collection_active. -/
def is_data_collection_active (path : Option String) : Bool :=
  let current := current_route path
  current == "/data-collection" || current == "/data-collection/"

/-- NavbarState.is_eda_active. -/
def is_eda_active (path : Option String) : Bool :=
  let current := current_route path
  current == "/eda" || current == "/eda/"

/-- NavbarState.is_modeling_active. -/
def is_modeling_active (path : Option String) : Bool :=
  let current := current_route path
  current == "/modeling" || current == "/modeling/"

/-- NavbarState.is_forecast_active. -/
def is_forecast_active (path : Option String) : Bool :=
  let current := current_route path
  current == "/forecast" || current == "/forecast/"

/-- The five active-route flags of the navbar, in the order the links appear. -/
def navbarActiveFlags (path : Option String) : List Bool :=
  [is_home_active path, is_data_collection_active path, is_eda_active path,
   is_modeling_active path, is_forecast_active path]

/- ----------------------------------------------------------------
   goldsight/goldsight.py : route registration
   ---------------------------------------------------------------- -/

/-- The five page-builder functions imported by goldsight.py. -/
inductive Page where
  | home_page
  | data_collection_page
  | eda_page
  | modeling_page
  | forecast_page
deriving DecidableEq, Repr

/-- One app.add_page call: the component, its route and its title. -/
structure RegisteredPage where
  page : Page
  route : String
  title : String
deriving DecidableEq, Repr

/-- The sequence of app.add_page calls in goldsight.py (lines 30 to 34). -/
def app_pages : List RegisteredPage :=
  [⟨Page.home_page, "/", "Home - Gold Price Prediction"⟩,
   ⟨Page.data_collection_page, "/data-collection", "Data Collection"⟩,
   ⟨Page.eda_page, "/eda", "Exploratory Data Analysis"⟩,
   ⟨Page.modeling_page, "/modeling", "Model Training"⟩,
   ⟨Page.forecast_page, "/forecast", "Forecast"⟩]

/- ----------------------------------------------------------------
   goldsight/components/chapter_nav.py : chapter_progress
   ---------------------------------------------------------------- -/

/-- Rendered output of the inner circle() helper of chapter_progress: the
fields that rx.cond chooses between, plus the constant texts. -/
structure ProgCircle where
  number : String
  label : String
  numberColor : String
  background : String
  border : String
  labelWeight : String
  labelColor : String
deriving DecidableEq, Repr

/-- Rendered output of the inner connector_line() helper of chapter_progress. -/
structure Connector where
  background : String
deriving DecidableEq, Repr

/-- A child of the rx.flex returned by chapter_progress. -/
inductive ProgressChild where
  | circ (c : ProgCircle)
  | line (l : Connector)
deriving DecidableEq, Repr

/-- circle(number, label, position) from chapter_progress: is_current and
is_completed are Python booleans, so every rx.cond resolves at build time. -/
def progressCircle (current : Int) (number label : String) (position : Int) : ProgCircle :=
  let is_current := position = current
  let is_completed := position < current
  { number := number
    label := label
    numberColor := if is_current then "white" else rxColor "gray" 11
    background := if is_current then rxColor "amber" 9 else rxColor "gray" 3
    border :=
      if is_completed ∨ is_current then "2px solid " ++ rxColor "amber" 9
      else "2px solid " ++ rxColor "gray" 5
    labelWeight := if is_current then "bold" else "medium"
    labelColor := if is_current then rxColor "amber" 11 else rxColor "gray" 10 }

/-- connector_line(position) from chapter_progress. -/
def connector_line (current : Int) (position : Int) : Connector :=
  let is_completed := position < current
  { background := if is_completed then rxColor "amber" 9 else rxColor "gray" 5 }

/-- chapter_progress(current): the children of the returned rx.flex, in
order. -/
def chapter_progress (current : Int) : List ProgressChild :=
  [ProgressChild.circ (progressCircle current "1" "Data Collection" 1),
   ProgressChild.line (connector_line current 1),
   ProgressChild.circ (progressCircle current "2" "EDA" 2),
   ProgressChild.line (connector_line current 2),
   ProgressChild.circ (progressCircle current "3" "Modeling" 3),
   ProgressChild.line (connector_line current 3),
   ProgressChild.circ (progressCircle current "4" "Forecast" 4)]

/-- The circles of a chapter_progress flex, in order. -/
def circlesOf (children : List ProgressChild) : List ProgCircle :=
  children.filterMap fun child =>
    match child with
    | ProgressChild.circ c => some c
    | ProgressChild.line _ => none

/-- The connector lines of a chapter_progress flex, in order. -/
def connectorsOf (children : List ProgressChild) : List Connector :=
  children.filterMap fun child =>
    match child with
    | ProgressChild.circ _ => none
    | ProgressChild.line l => some l

/- ----------------------------------------------------------------
   goldsight/pages/eda.py : load_plotly_chart
   ---------------------------------------------------------------- -/

/-- A parsed chart JSON dictionary (the payload is irrelevant to the spec). -/
structure FigDict where
  raw : String
deriving DecidableEq, Repr

/-- One entry of the annotations list passed to update_layout. -/
structure Annotation where
  text : String
  showarrow : Bool
  x : ℚ
  y : ℚ
  fontSize : Nat
  fontColor : String
deriving DecidableEq

/-- The layout fields load_plotly_chart sets on its fallback figures. -/
structure FigLayout where
  title : String
  annotations : List Annotation
  height : Nat
deriving DecidableEq

/-- A plotly figure as far as load_plotly_chart is concerned: either built
from a cached dict, or an empty figure with an updated layout. -/
inductive Figure where
  | ofDict (d : FigDict)
  | layout (l : FigLayout)
deriving DecidableEq

/-- State of the cache file for one chart name: the file is absent, or some
step of open/json.load/go.Figure raises an exception with the given message,
or everything succeeds and yields a figure dict. -/
inductive CacheEntry where
  | missing
  | raises (msg : String)
  | loaded (d : FigDict)
deriving DecidableEq

/-- The figure built when cache_path.exists() is false (eda.py lines 37
to 48). -/
def chart_not_found_figure (chart_name : String) : Figure :=
  Figure.layout
    { title := "Chart \x27" ++ chart_name ++ "\x27 not found"
      annotations :=
        [{ text := "Run explore.ipynb to generate " ++ chart_name ++ ".json"
           showarrow := false
           x := 1/2
           y := 1/2
           fontSize := 16
           fontColor := "gray" }]
      height := 400 }

/-- The figure built by the except-branch of load_plotly_chart (eda.py lines
58 to 69). -/
def chart_error_figure (chart_name msg : String) : Figure :=
  Figure.layout
    { title := "Error loading \x27" ++ chart_name ++ "\x27"
      annotations :=
        [{ text := "Error: " ++ msg
           showarrow := false
           x := 1/2
           y := 1/2
           fontSize := 14
           fontColor := "red" }]
      height := 400 }

/-- The try-block of load_plotly_chart: a missing file returns the
placeholder, a raising step propagates its exception, a loaded dict becomes
go.Figure(fig_dict). -/
def load_try_block (cache : String → CacheEntry) (chart_name : String) :
    Except String Figure :=
  match cache chart_name with
  | CacheEntry.missing => Except.ok (chart_not_found_figure chart_name)
  | CacheEntry.raises msg => Except.error msg
  | CacheEntry.loaded d => Except.ok (Figure.ofDict d)

/-- load_plotly_chart(chart_name) over a cache state: the try-block wrapped
in the except-branch, hence total. -/
def load_plotly_chart (cache : String → CacheEntry) (chart_name : String) :
    Figure :=
  match load_try_block cache chart_name with
  | Except.ok fig => fig
  | Except.error msg => chart_error_figure chart_name msg

/- ----------------------------------------------------------------
   goldsight/pages/eda.py : dataset_overview
   ---------------------------------------------------------------- -/

/-- A value stored in one DataFrame cell: NaN, a number, or a string. -/
inductive Cell where
  | na
  | num (v : ℚ)
  | str (s : String)
deriving DecidableEq

/-- A loaded combined_data.csv: the column names, a per-column flag telling
whether pandas inferred dtype float64/float32 for it, and the rows. -/
structure Csv where
  columns : List String
  floatCols : List Bool
  rows : List (List Cell)
deriving DecidableEq

/-- Model of Python str() on a cell value (used only on cells of non-float
columns). -/
def cellToStr : Cell → String
  | Cell.na => "nan"
  | Cell.num v => if v.den = 1 then toString v.num else toString v
  | Cell.str s => s

/-- Model of the Python format expression on a float cell value, rounding to
two decimal places. -/
def fmt2 (v : ℚ) : String :=
  let n : Int := (v * 100 + 1/2).floor
  let a := n.natAbs
  (if n < 0 then "-" else "") ++ toString (a / 100) ++ "." ++
    (if a % 100 < 10 then "0" else "") ++ toString (a % 100)

/-- A cell of df_display: float columns were replaced by formatted strings,
the other columns keep their original value. -/
inductive DCell where
  | fstr (s : String)
  | raw (c : Cell)
deriving DecidableEq

/-- The per-column formatting loop of dataset_overview (eda.py lines 345 to
347): cells of float64/float32 columns become two-decimal strings, with NaN
mapped to the empty string.  (Float columns hold numbers or NaN; the
string case is kept only to make the function total.) -/
def formatCell (isFloat : Bool) (c : Cell) : DCell :=
  if isFloat then
    DCell.fstr
      (match c with
       | Cell.na => ""
       | Cell.num v => fmt2 v
       | Cell.str s => s)
  else DCell.raw c

/-- The table-cell rendering in dataset_overview (eda.py line 423):
str(cell) unless the cell is the empty string, which renders as "-". -/
def displayCell : DCell → String
  | DCell.fstr s => if s = "" then "-" else s
  | DCell.raw (Cell.str s) => if s = "" then "-" else s
  | DCell.raw c => cellToStr c

/-- The local variables assembled by the try/except block of
dataset_overview (eda.py lines 336 to 362). -/
structure OverviewState where
  columns : List String
  rows : List (List DCell)
  data_loaded : Bool
  total_rows : Nat
  total_cols : Nat
deriving DecidableEq

/-- Model of the try/except block of dataset_overview.  The argument is the
outcome of pd.read_csv and the preview-building steps: a loaded CSV, or the
message of the exception some step raised. -/
def dataset_overview_state (load : Except String Csv) : OverviewState :=
  match load with
  | Except.ok df =>
      let df_preview := df.rows.take 10
      { columns := df.columns
        rows := df_preview.map fun row => List.zipWith formatCell df.floatCols row
        data_loaded := true
        total_rows := df.rows.length
        total_cols := df.columns.length }
  | Except.error e =>
      { columns := ["Error"]
        rows := [[DCell.raw (Cell.str ("Could not load data: " ++ e))]]
        data_loaded := false
        total_rows := 0
        total_cols := 0 }

/-- A metric_card call from eda.py: label, value, icon, color scheme. -/
structure MetricCard where
  label : String
  value : String
  icon : String
  colorScheme : String
deriving DecidableEq

/-- The preview panel rendered by dataset_overview. -/
structure PreviewTable where
  panelHeading : String
  caption : String
  headers : List String
  body : List (List String)
deriving DecidableEq

/-- The component rendered in the preview position: the rx.cond in
dataset_overview (eda.py lines 386 to 453) chooses the table box when
data_loaded holds and an empty rx.box() otherwise. -/
inductive PreviewSlot where
  | table (t : PreviewTable)
  | emptyBox
deriving DecidableEq

/-- The rx.vstack returned by dataset_overview (eda.py lines 364 to 459). -/
structure DatasetOverview where
  heading : String
  intro : String
  cards : List MetricCard
  preview : PreviewSlot
deriving DecidableEq

/-- dataset_overview() over the outcome of its CSV-loading steps. -/
def dataset_overview (load : Except String Csv) : DatasetOverview :=
  let st := dataset_overview_state load
  { heading := "Dataset Overview"
    intro := "After alignment and preprocessing, we have a unified monthly dataset spanning 19.5 years. All 17 features are synchronized to end-of-month dates"
    cards :=
      [⟨"Total Features", if st.data_loaded then toString st.total_cols else "17",
        "database", "amber"⟩,
       ⟨"Time Span", "19.5 Years", "calendar", "blue"⟩,
       ⟨"Monthly Observations", if st.data_loaded then toString st.total_rows else "233",
        "bar-chart", "green"⟩]
    preview :=
      if st.data_loaded then
        PreviewSlot.table
          { panelHeading := "Dataset Preview (First 10 Rows)"
            caption := "Showing 10 of " ++ toString st.total_rows ++ " rows • " ++
              toString st.total_cols ++ " columns"
            headers := st.columns
            body := st.rows.map fun row => row.map displayCell }
      else PreviewSlot.emptyBox }

/-- Every user-visible text of a dataset_overview component tree. -/
def previewTexts : PreviewSlot → List String
  | PreviewSlot.table t => [t.panelHeading, t.caption] ++ t.headers ++ t.body.flatten
  | PreviewSlot.emptyBox => []

/-- All texts rendered by dataset_overview: heading, intro, metric cards and
the preview slot. -/
def overviewTexts (o : DatasetOverview) : List String :=
  [o.heading, o.intro] ++ o.cards.map MetricCard.label ++ o.cards.map MetricCard.value
    ++ previewTexts o.preview

/- ----------------------------------------------------------------
   Python float() on strings, as used by modeling.py
   ---------------------------------------------------------------- -/

/-- Numeric value of a list of decimal digit characters. -/
def digitsToNat (cs : List Char) : Nat :=
  cs.foldl (fun a c => a * 10 + (c.toNat - 48)) 0

/-- Powers of ten in ℚ. -/
def qpow10 : Nat → ℚ
  | 0 => 1
  | n + 1 => qpow10 n * 10

/-- The unsigned mantissa of a float literal: digits, with an optional dot
and fractional digits; at least one digit overall. -/
def parseMantissa (cs : List Char) : Option (ℚ × List Char) :=
  let (ip, rest) := cs.span (fun c => c.isDigit)
  match rest with
  | '.' :: rest2 =>
      let (fp, rest3) := rest2.span (fun c => c.isDigit)
      if ip.isEmpty && fp.isEmpty then none
      else some ((digitsToNat ip : ℚ) + (digitsToNat fp : ℚ) / qpow10 fp.length, rest3)
  | _ => if ip.isEmpty then none else some ((digitsToNat ip : ℚ), rest)

/-- An optional exponent part e/E, optional sign, digits. -/
def parseExponent (cs : List Char) : Option (Int × List Char) :=
  match cs with
  | 'e' :: rest | 'E' :: rest =>
      let (sgn, rest2) :=
        match rest with
        | '+' :: t => ((1 : Int), t)
        | '-' :: t => ((-1 : Int), t)
        | _ => ((1 : Int), rest)
      let (ds, rest3) := rest2.span (fun c => c.isDigit)
      if ds.isEmpty then none else some (sgn * (digitsToNat ds : Int), rest3)
  | _ => some (0, cs)

/-- Scaling by a signed power of ten. -/
def scalePow10 (v : ℚ) (e : Int) : ℚ :=
  if 0 ≤ e then v * qpow10 e.toNat else v / qpow10 (-e).toNat

/-- Leading and trailing whitespace removal, as Python float() performs on
its argument. -/
def stripChars (cs : List Char) : List Char :=
  ((cs.dropWhile (fun c => c.isWhitespace)).reverse.dropWhile
    (fun c => c.isWhitespace)).reverse

/-- Model of Python float(s) for finite decimal literals: optional sign,
mantissa, optional exponent, surrounding whitespace.  None models a
ValueError.  (The inf/nan spellings and digit underscores are outside the
fragment this repository feeds to float().) -/
def pyFloatOpt (s : String) : Option ℚ :=
  let cs := stripChars s.data
  let (sgn, cs1) :=
    match cs with
    | '+' :: t => ((1 : ℚ), t)
    | '-' :: t => ((-1 : ℚ), t)
    | _ => ((1 : ℚ), cs)
  match parseMantissa cs1 with
  | none => none
  | some (m, rest) =>
      match parseExponent rest with
      | none => none
      | some (e, rest2) =>
          if rest2.isEmpty then some (sgn * scalePow10 m e) else none

/-- The replace call in comparison_table_section: the Unicode minus sign
U+2212 becomes an ASCII hyphen (a one-character pattern, hence a map). -/
def replaceMinus (s : String) : String :=
  String.mk (s.data.map fun c => if c = '−' then '-' else c)

/-- float(row[1].replace("−", "-")): the R-squared cell parsed as a float. -/
def parseR2 (s : String) : Option ℚ :=
  pyFloatOpt (replaceMinus s)

/- ----------------------------------------------------------------
   goldsight/pages/modeling.py : metric_card and comparison_table_section
   ---------------------------------------------------------------- -/

/-- The description slot of the modeling metric_card: rx.cond renders the
description text when it is non-empty and an rx.fragment() otherwise. -/
inductive DescriptionSlot where
  | text (s : String)
  | fragment
deriving DecidableEq

/-- metric_card from modeling.py (lines 27 to 53): label, value heading,
conditional description, color scheme. -/
structure ModelMetricCard where
  label : String
  value : String
  descriptionSlot : DescriptionSlot
  colorScheme : String
deriving DecidableEq

/-- metric_card(label, value, color_scheme, description) from modeling.py. -/
def metric_card (label value color_scheme description : String) : ModelMetricCard :=
  { label := label
    value := value
    descriptionSlot :=
      if description ≠ "" then DescriptionSlot.text description
      else DescriptionSlot.fragment
    colorScheme := color_scheme }

/-- One rendered row of a comparison table: model cell (with conditional
trophy icon), R-squared badge with its color scheme, RMSE, MAE, notes, and
the row style chosen for the best row. -/
structure CmpRow where
  model : String
  trophy : Bool
  r2 : String
  r2Color : String
  rmse : String
  mae : String
  notes : String
  background : String
  fontWeight : String
deriving DecidableEq

/-- The component returned by comparison_table_section. -/
structure CompTable where
  title : String
  description : String
  header : List String
  rows : List CmpRow
deriving DecidableEq

/-- Sequencing of fallible steps over a list, modelling a Python list
comprehension or loop in which any step may raise. -/
def mapMO {α β : Type} (f : α → Option β) : List α → Option (List β)
  | [] => some []
  | a :: l =>
      match f a with
      | none => none
      | some b =>
          match mapMO f l with
          | none => none
          | some bs => some (b :: bs)

/-- Python max() on a non-empty list of parsed floats (the empty case is
unreachable: the call is guarded by len(data) > 0). -/
def listMax : List ℚ → ℚ
  | [] => 0
  | v :: rest => rest.foldl max v

/-- The parsed R-squared of one data row: row[1] indexed (IndexError is
none) then parsed (ValueError is none). -/
def rowR2 (row : List String) : Option ℚ :=
  (row[1]?).bind parseR2

/-- Lines 60 to 63 of modeling.py: best_idx starts at 0; when highlighting
is on and the data is non-empty, it becomes the first index whose parsed
R-squared equals the maximum. -/
def comp_best_idx (data : List (List String)) (highlight_best : Bool) : Option Nat :=
  if highlight_best && !data.isEmpty then
    match mapMO rowR2 data with
    | none => none
    | some vals =>
        let best_r2 := listMax vals
        some (vals.findIdx fun v => v == best_r2)
  else some 0

/-- The body of the row loop of comparison_table_section (modeling.py lines
66 to 93) for the row at index idx. -/
def comp_row (highlight_best : Bool) (best_idx idx : Nat) (row : List String) :
    Option CmpRow :=
  let is_best := idx == best_idx && highlight_best
  match row[0]?, row[1]?, row[2]?, row[3]?, row[4]? with
  | some c0, some c1, some c2, some c3, some c4 =>
      match parseR2 c1 with
      | none => none
      | some v =>
          some
            { model := c0
              trophy := is_best
              r2 := c1
              r2Color := if v > 9/10 then "green" else "gray"
              rmse := c2
              mae := c3
              notes := c4
              background := if is_best then rxColor "green" 2 else "transparent"
              fontWeight := if is_best then "bold" else "normal" }
  | _, _, _, _, _ => none

/-- The enumerate loop building table_rows, starting at index idx. -/
def comp_rows (highlight_best : Bool) (best_idx : Nat) :
    Nat → List (List String) → Option (List CmpRow)
  | _, [] => some []
  | idx, row :: rest =>
      match comp_row highlight_best best_idx idx row with
      | none => none
      | some r =>
          match comp_rows highlight_best best_idx (idx + 1) rest with
          | none => none
          | some rs => some (r :: rs)

/-- comparison_table_section(title, description, data, highlight_best) from
modeling.py; none models an uncaught IndexError or ValueError. -/
def comparison_table_section (title description : String)
    (data : List (List String)) (highlight_best : Bool) : Option CompTable :=
  match comp_best_idx data highlight_best with
  | none => none
  | some best_idx =>
      match comp_rows highlight_best best_idx 0 data with
      | none => none
      | some rows =>
          some
            { title := title
              description := description
              header := ["Model", "R²", "RMSE", "MAE", "Notes"]
              rows := rows }

/-- A two-column two-row CSV of string cells, used to exhibit data-dependent
rendering of dataset_overview. -/
def csvEx : Csv :=
  { columns := ["Date", "Gold_Spot"]
    floatCols := [false, false]
    rows := [[Cell.str "2006-01-31", Cell.str "568.75"],
             [Cell.str "2006-02-28", Cell.str "556.00"]] }

/-- The layout of a fallback figure, when the figure is one. -/
def figLayoutOf : Figure → Option FigLayout
  | Figure.ofDict _ => none
  | Figure.layout l => some l

/-- The preview table of a preview slot, when the slot holds one. -/
def previewTableOf : PreviewSlot → Option PreviewTable
  | PreviewSlot.table t => some t
  | PreviewSlot.emptyBox => none

/-- A ten-row one-column CSV used to instantiate the preview-table theorem. -/
def csv10 : Csv :=
  { columns := ["Gold_Spot"]
    floatCols := [false]
    rows := List.replicate 10 [Cell.str "568.75"] }

/- ----------------------------------------------------------------
   Theorems
   ---------------------------------------------------------------- -/

/-- A string contains any middle factor of a two-fold append. -/
theorem strContains_append (pre sub post : String) :
    strContains (pre ++ sub ++ post) sub := by
  refine ⟨pre.data, post.data, ?_⟩
  simp [String.data_append]

/-- A string contains its second append factor. -/
theorem strContains_append_right (pre sub : String) :
    strContains (pre ++ sub) sub := by
  refine ⟨pre.data, [], ?_⟩
  simp [String.data_append]

/-- C1: for every chart name whose cache file does not exist,
load_plotly_chart returns the placeholder figure rather than raising, and
both the title and the single annotation of that figure contain the chart
name. -/
theorem load_plotly_chart_missing_placeholder (cache : String → CacheEntry)
    (chart_name : String) (h : cache chart_name = CacheEntry.missing) :
    load_plotly_chart cache chart_name = chart_not_found_figure chart_name
    ∧ ∃ l, figLayoutOf (chart_not_found_figure chart_name) = some l
        ∧ strContains l.title chart_name
        ∧ l.annotations.length = 1
        ∧ ∀ a ∈ l.annotations, strContains a.text chart_name := by
  constructor
  · unfold load_plotly_chart load_try_block
    rw [h]
  · refine ⟨_, rfl, strContains_append _ _ _, rfl, ?_⟩
    intro a ha
    simp only [chart_not_found_figure, figLayoutOf, List.mem_singleton] at ha ⊢
    subst ha
    exact strContains_append _ _ _

theorem load_plotly_chart_missing_placeholder_witness :
    load_plotly_chart (fun _ => CacheEntry.missing) "correlation_heatmap" =
      chart_not_found_figure "correlation_heatmap" :=
  (load_plotly_chart_missing_placeholder (fun _ => CacheEntry.missing)
    "correlation_heatmap" rfl).1

/-- C3: load_plotly_chart is total; whenever opening or parsing the cache
raises, the exception is caught and the returned error figure has the chart
name in its title and the exception message in its single annotation. -/
theorem load_plotly_chart_catches_exceptions (cache : String → CacheEntry)
    (chart_name msg : String) (h : cache chart_name = CacheEntry.raises msg) :
    load_plotly_chart cache chart_name = chart_error_figure chart_name msg
    ∧ ∃ l, figLayoutOf (chart_error_figure chart_name msg) = some l
        ∧ strContains l.title chart_name
        ∧ l.annotations.length = 1
        ∧ ∀ a ∈ l.annotations, strContains a.text msg := by
  constructor
  · unfold load_plotly_chart load_try_block
    rw [h]
  · refine ⟨_, rfl, strContains_append _ _ _, rfl, ?_⟩
    intro a ha
    simp only [chart_error_figure, figLayoutOf, List.mem_singleton] at ha ⊢
    subst ha
    exact strContains_append_right _ _

theorem load_plotly_chart_catches_exceptions_witness :
    load_plotly_chart (fun _ => CacheEntry.raises "Expecting value") "gold_distributions" =
      chart_error_figure "gold_distributions" "Expecting value" :=
  (load_plotly_chart_catches_exceptions (fun _ => CacheEntry.raises "Expecting value")
    "gold_distributions" "Expecting value" rfl).1

/-- C9: current_route returns the router path itself when it is a non-empty
string, returns "/" when the path is None or empty, and never returns the
empty string. -/
theorem current_route_nonempty (path : Option String) :
    current_route path ≠ ""
    ∧ (∀ s, path = some s → s ≠ "" → current_route path = s)
    ∧ (path = none → current_route path = "/")
    ∧ (path = some "" → current_route path = "/") := by
  rcases path with _ | p
  · simp [current_route]
  · by_cases h : p = "" <;> simp [current_route, h]

theorem current_route_nonempty_witness :
    current_route (some "/eda") = "/eda" :=
  (current_route_nonempty (some "/eda")).2.1 "/eda" rfl (by decide)

/-- The five navbar flags, each an equality test against fixed route
strings, can never hold for two different links at once. -/
theorem navbar_flags_count_le_one (r : String) :
    ([r == "/",
      r == "/data-collection" || r == "/data-collection/",
      r == "/eda" || r == "/eda/",
      r == "/modeling" || r == "/modeling/",
      r == "/forecast" || r == "/forecast/"].countP id) ≤ 1 := by
  by_cases h0 : r = "/"
  · subst h0; decide
  by_cases h1 : r = "/data-collection"
  · subst h1; decide
  by_cases h2 : r = "/data-collection/"
  · subst h2; decide
  by_cases h3 : r = "/eda"
  · subst h3; decide
  by_cases h4 : r = "/eda/"
  · subst h4; decide
  by_cases h5 : r = "/modeling"
  · subst h5; decide
  by_cases h6 : r = "/modeling/"
  · subst h6; decide
  by_cases h7 : r = "/forecast"
  · subst h7; decide
  by_cases h8 : r = "/forecast/"
  · subst h8; decide
  have e0 := beq_eq_false_iff_ne.mpr h0
  have e1 := beq_eq_false_iff_ne.mpr h1
  have e2 := beq_eq_false_iff_ne.mpr h2
  have e3 := beq_eq_false_iff_ne.mpr h3
  have e4 := beq_eq_false_iff_ne.mpr h4
  have e5 := beq_eq_false_iff_ne.mpr h5
  have e6 := beq_eq_false_iff_ne.mpr h6
  have e7 := beq_eq_false_iff_ne.mpr h7
  have e8 := beq_eq_false_iff_ne.mpr h8
  simp [e0, e1, e2, e3, e4, e5, e6, e7, e8]

/-- C4: each navbar predicate holds exactly on its own route (with an
optional trailing slash for the four chapter routes), and for any path at
most one of the five predicates holds. -/
theorem navbar_active_selects_route (path : Option String) :
    (is_home_active path = true ↔ current_route path = "/")
    ∧ (is_data_collection_active path = true ↔
        (current_route path = "/data-collection" ∨
         current_route path = "/data-collection/"))
    ∧ (is_eda_active path = true ↔
        (current_route path = "/eda" ∨ current_route path = "/eda/"))
    ∧ (is_modeling_active path = true ↔
        (current_route path = "/modeling" ∨ current_route path = "/modeling/"))
    ∧ (is_forecast_active path = true ↔
        (current_route path = "/forecast" ∨ current_route path = "/forecast/"))
    ∧ (navbarActiveFlags path).countP id ≤ 1 := by
  refine ⟨?_, ?_, ?_, ?_, ?_, ?_⟩
  · simp [is_home_active]
  · simp [is_data_collection_active]
  · simp [is_eda_active]
  · simp [is_modeling_active]
  · simp [is_modeling_active, is_forecast_active]
  · exact navbar_flags_count_le_one (current_route path)

theorem navbar_active_selects_route_witness :
    is_eda_active (some "/eda") = true :=
  ((navbar_active_selects_route (some "/eda")).2.2.1).mpr (Or.inl (by decide))

/-- C5: the application registers exactly the five routes of the spec, in
order, bound to the five page builders, and no other route. -/
theorem app_routes_exactly_five :
    app_pages.map (fun r => (r.route, r.page)) =
      [("/", Page.home_page), ("/data-collection", Page.data_collection_page),
       ("/eda", Page.eda_page), ("/modeling", Page.modeling_page),
       ("/forecast", Page.forecast_page)]
    ∧ app_pages.length = 5
    ∧ ∀ route pg, (route, pg) ∈ app_pages.map (fun r => (r.route, r.page)) ↔
        (route, pg) ∈
          [("/", Page.home_page), ("/data-collection", Page.data_collection_page),
           ("/eda", Page.eda_page), ("/modeling", Page.modeling_page),
           ("/forecast", Page.forecast_page)] := by
  refine ⟨rfl, rfl, ?_⟩
  intro route pg
  exact Iff.rfl

/-- C10: for every chapter number 1 to 4, exactly one progress circle gets
the current styling, a circle border is amber exactly when its position is
at most the current chapter, a connector is amber exactly when its position
is below the current chapter, and the amber-bordered circles form a
downward-closed prefix. -/
theorem chapter_progress_downward_closed (current : Int)
    (h : current = 1 ∨ current = 2 ∨ current = 3 ∨ current = 4) :
    ((circlesOf (chapter_progress current)).countP
        (fun c => c.background == rxColor "amber" 9)) = 1
    ∧ (∀ p : Fin 4,
        ((circlesOf (chapter_progress current))[p.1]?).map ProgCircle.background
          = some (if ((p.1 : Int) + 1) = current then rxColor "amber" 9
                  else rxColor "gray" 3))
    ∧ (∀ p : Fin 4,
        ((circlesOf (chapter_progress current))[p.1]?).map ProgCircle.border
          = some (if ((p.1 : Int) + 1) ≤ current then "2px solid " ++ rxColor "amber" 9
                  else "2px solid " ++ rxColor "gray" 5))
    ∧ (∀ p : Fin 3,
        ((connectorsOf (chapter_progress current))[p.1]?).map Connector.background
          = some (if ((p.1 : Int) + 1) < current then rxColor "amber" 9
                  else rxColor "gray" 5))
    ∧ (∀ p q : Fin 4, p.1 ≤ q.1 →
        ((circlesOf (chapter_progress current))[q.1]?).map ProgCircle.border
          = some ("2px solid " ++ rxColor "amber" 9) →
        ((circlesOf (chapter_progress current))[p.1]?).map ProgCircle.border
          = some ("2px solid " ++ rxColor "amber" 9)) := by
  rcases h with h | h | h | h <;> subst h <;> exact (by decide)

theorem chapter_progress_downward_closed_witness :
    ((circlesOf (chapter_progress 2)).countP
        (fun c => c.background == rxColor "amber" 9)) = 1 :=
  (chapter_progress_downward_closed 2 (Or.inr (Or.inl rfl))).1

set_option maxRecDepth 40000 in
/-- C2 counterexample: when the CSV load raises an exception with message
"boom", dataset_overview puts an empty box where the preview table would be,
and no rendered text contains the exception message. -/
theorem dataset_overview_error_hides_message :
    (dataset_overview (Except.error "boom")).preview = PreviewSlot.emptyBox
    ∧ ∀ s ∈ overviewTexts (dataset_overview (Except.error "boom")),
        ¬ strContains s "boom" := by
  decide

/-- C2 (amended): when the CSV load fails, dataset_overview builds the
error table data (a single cell with the exception message) but then renders
an empty box in the preview position, and the metric cards fall back to the
hard-coded values; the error message is never rendered. -/
theorem dataset_overview_error_empty_box (e : String) :
    (dataset_overview (Except.error e)).preview = PreviewSlot.emptyBox
    ∧ (dataset_overview (Except.error e)).cards.map MetricCard.value =
        ["17", "19.5 Years", "233"]
    ∧ (dataset_overview_state (Except.error e)).rows =
        [[DCell.raw (Cell.str ("Could not load data: " ++ e))]] :=
  ⟨rfl, rfl, rfl⟩

theorem dataset_overview_error_empty_box_witness :
    (dataset_overview (Except.error "no such file")).preview = PreviewSlot.emptyBox :=
  (dataset_overview_error_empty_box "no such file").1

/-- C6: on a successful load, the preview table has one header per CSV
column in order, its body is exactly the first ten CSV rows in file order
(rendered through the float formatting of the code), and the caption
reports the row and column counts of the whole CSV. -/
theorem dataset_overview_preview_contents (df : Csv) (h10 : 10 ≤ df.rows.length) :
    (previewTableOf (dataset_overview (Except.ok df)).preview).map
        PreviewTable.headers = some df.columns
    ∧ (previewTableOf (dataset_overview (Except.ok df)).preview).map
        PreviewTable.body =
      some ((df.rows.take 10).map
        (fun row => (List.zipWith formatCell df.floatCols row).map displayCell))
    ∧ (previewTableOf (dataset_overview (Except.ok df)).preview).map
        (fun t => t.body.length) = some 10
    ∧ (previewTableOf (dataset_overview (Except.ok df)).preview).map
        PreviewTable.caption =
      some ("Showing 10 of " ++ toString df.rows.length ++ " rows • " ++
        toString df.columns.length ++ " columns") := by
  have e : (dataset_overview (Except.ok df)).preview = PreviewSlot.table
      { panelHeading := "Dataset Preview (First 10 Rows)"
        caption := "Showing 10 of " ++ toString df.rows.length ++ " rows • " ++
          toString df.columns.length ++ " columns"
        headers := df.columns
        body := ((df.rows.take 10).map
            (fun row => List.zipWith formatCell df.floatCols row)).map
          (fun row => row.map displayCell) } := rfl
  rw [e]
  refine ⟨rfl, ?_, ?_, rfl⟩
  · simp [previewTableOf, List.map_map]
    rfl
  · simp [previewTableOf, List.length_map, List.length_take]
    exact h10

theorem dataset_overview_preview_contents_witness :
    (previewTableOf (dataset_overview (Except.ok csv10)).preview).map
        PreviewTable.headers = some csv10.columns :=
  (dataset_overview_preview_contents csv10 (by decide)).1

/-- C7 counterexample: chapter_progress, a component builder other than the
navbar predicates and the chart loader, renders different output for
different input, so its output does contain a data-dependent branch. -/
theorem chapter_progress_output_branches :
    chapter_progress 1 ≠ chapter_progress 2 := by
  decide

/-- C7 (amended): the navbar highlighting and the chart-loader fallback are
not the only conditional logic: chapter_progress, the modeling metric_card,
and dataset_overview also render data-dependent branches (and
comparison_table_section branches on its data as well, settled separately). -/
theorem conditional_logic_not_only_navbar :
    chapter_progress 1 ≠ chapter_progress 2
    ∧ metric_card "R²" "0.947" "green" "95% variance explained" ≠
        metric_card "R²" "0.947" "green" ""
    ∧ dataset_overview (Except.ok csvEx) ≠ dataset_overview (Except.error "io error") := by
  refine ⟨by decide, by decide, by decide⟩

/-- Unfolding lemma for mapMO on a cons cell. -/
theorem mapMO_cons {α β : Type} (f : α → Option β) (a : α) (l : List α) :
    mapMO f (a :: l) =
      (f a).bind fun b => (mapMO f l).bind fun bs => some (b :: bs) := by
  cases hfa : f a <;> cases hml : mapMO f l <;> simp [mapMO, hfa, hml]

/-- A fallible map over a list of individually succeeding steps succeeds. -/
theorem mapMO_exists_of_isSome {α β : Type} (f : α → Option β) :
    ∀ l : List α, (∀ a ∈ l, (f a).isSome) → ∃ bs, mapMO f l = some bs := by
  intro l
  induction l with
  | nil => exact fun _ => ⟨[], rfl⟩
  | cons a t ih =>
      intro h
      obtain ⟨b, hb⟩ := Option.isSome_iff_exists.mp (h a (List.mem_cons_self a t))
      obtain ⟨bs, hbs⟩ := ih fun x hx => h x (List.mem_cons_of_mem a hx)
      exact ⟨b :: bs, by rw [mapMO_cons, hb, hbs]; rfl⟩

/-- A successful fallible map preserves length. -/
theorem mapMO_length {α β : Type} (f : α → Option β) :
    ∀ {l : List α} {bs : List β}, mapMO f l = some bs → bs.length = l.length := by
  intro l
  induction l with
  | nil =>
      intro bs h
      simp only [mapMO, Option.some.injEq] at h
      subst h
      rfl
  | cons a t ih =>
      intro bs h
      rw [mapMO_cons] at h
      cases hfa : f a with
      | none => rw [hfa] at h; simp at h
      | some b =>
          rw [hfa] at h
          cases hmt : mapMO f t with
          | none => rw [hmt] at h; simp at h
          | some bs2 =>
              rw [hmt] at h
              simp only [Option.some_bind, Option.some.injEq] at h
              subst h
              simp [ih hmt]

/-- Entries of a successful fallible map are the images of the entries. -/
theorem mapMO_getElem? {α β : Type} (f : α → Option β) :
    ∀ {l : List α} {bs : List β}, mapMO f l = some bs →
      ∀ i : Nat, bs[i]? = (l[i]?).bind f := by
  intro l
  induction l with
  | nil =>
      intro bs h i
      simp only [mapMO, Option.some.injEq] at h
      subst h
      simp
  | cons a t ih =>
      intro bs h i
      rw [mapMO_cons] at h
      cases hfa : f a with
      | none => rw [hfa] at h; simp at h
      | some b =>
          rw [hfa] at h
          cases hmt : mapMO f t with
          | none => rw [hmt] at h; simp at h
          | some bs2 =>
              rw [hmt] at h
              simp only [Option.some_bind, Option.some.injEq] at h
              subst h
              cases i with
              | zero => simp [hfa]
              | succ i => simpa using ih hmt i

/-- The left fold of max is an upper bound of the seed and the entries. -/
theorem foldl_max_bounds (l : List ℚ) :
    ∀ a : ℚ, a ≤ l.foldl max a ∧ ∀ x ∈ l, x ≤ l.foldl max a := by
  induction l with
  | nil => intro a; simp
  | cons h t ih =>
      intro a
      refine ⟨le_trans (le_max_left a h) (ih (max a h)).1, ?_⟩
      intro x hx
      rcases List.mem_cons.mp hx with rfl | hx
      · exact le_trans (le_max_right a x) (ih (max a x)).1
      · exact (ih (max a h)).2 x hx

/-- The left fold of max is the seed or one of the entries. -/
theorem foldl_max_mem (l : List ℚ) :
    ∀ a : ℚ, l.foldl max a ∈ a :: l := by
  induction l with
  | nil => intro a; simp
  | cons h t ih =>
      intro a
      simp only [List.foldl_cons]
      rcases List.mem_cons.mp (ih (max a h)) with he | hm
      · rcases max_choice a h with hc | hc <;> rw [he, hc] <;> simp
      · exact List.mem_cons_of_mem _ (List.mem_cons_of_mem _ hm)

/-- Python max() bounds every entry of the list. -/
theorem le_listMax {l : List ℚ} {x : ℚ} (hx : x ∈ l) : x ≤ listMax l := by
  cases l with
  | nil => cases hx
  | cons v rest =>
      rcases List.mem_cons.mp hx with rfl | hm
      · exact (foldl_max_bounds rest x).1
      · exact (foldl_max_bounds rest v).2 x hm

/-- Python max() of a non-empty list is attained. -/
theorem listMax_mem {l : List ℚ} (h : l ≠ []) : listMax l ∈ l := by
  cases l with
  | nil => exact absurd rfl h
  | cons v rest => exact foldl_max_mem rest v

/-- Evaluation of the row builder when all five cells exist and the
R-squared cell parses. -/
theorem comp_row_eq (hb : Bool) (b idx : Nat) (row : List String)
    (c0 c1 c2 c3 c4 : String) (v : ℚ)
    (h0 : row[0]? = some c0) (h1 : row[1]? = some c1) (h2 : row[2]? = some c2)
    (h3 : row[3]? = some c3) (h4 : row[4]? = some c4)
    (hv : parseR2 c1 = some v) :
    comp_row hb b idx row = some
      { model := c0
        trophy := idx == b && hb
        r2 := c1
        r2Color := if v > 9/10 then "green" else "gray"
        rmse := c2
        mae := c3
        notes := c4
        background := if idx == b && hb then rxColor "green" 2 else "transparent"
        fontWeight := if idx == b && hb then "bold" else "normal" } := by
  simp only [comp_row, h0, h1, h2, h3, h4, hv]

/-- The row builder succeeds on rows with five cells and a parsing
R-squared. -/
theorem comp_row_isSome (hb : Bool) (b idx : Nat) (row : List String)
    (h5 : 5 ≤ row.length) (hv : (rowR2 row).isSome) :
    (comp_row hb b idx row).isSome := by
  have h0 := List.getElem?_eq_getElem (l := row) (n := 0) (by omega)
  have h1 := List.getElem?_eq_getElem (l := row) (n := 1) (by omega)
  have h2 := List.getElem?_eq_getElem (l := row) (n := 2) (by omega)
  have h3 := List.getElem?_eq_getElem (l := row) (n := 3) (by omega)
  have h4 := List.getElem?_eq_getElem (l := row) (n := 4) (by omega)
  obtain ⟨v, hv'⟩ := Option.isSome_iff_exists.mp hv
  rw [rowR2, h1, Option.some_bind] at hv'
  rw [comp_row_eq hb b idx row _ _ _ _ _ v h0 h1 h2 h3 h4 hv']
  rfl

/-- Unfolding lemma for the row loop on a cons cell. -/
theorem comp_rows_cons (hb : Bool) (b idx : Nat) (row : List String)
    (rest : List (List String)) :
    comp_rows hb b idx (row :: rest) =
      (comp_row hb b idx row).bind fun r =>
        (comp_rows hb b (idx + 1) rest).bind fun rs => some (r :: rs) := by
  cases h1 : comp_row hb b idx row <;> cases h2 : comp_rows hb b (idx + 1) rest <;>
    simp [comp_rows, h1, h2]

/-- The row loop succeeds when every row has five cells and a parsing
R-squared. -/
theorem comp_rows_exists (hb : Bool) (b : Nat) :
    ∀ (data : List (List String)) (k : Nat),
      (∀ row ∈ data, 5 ≤ row.length ∧ (rowR2 row).isSome) →
      ∃ rs, comp_rows hb b k data = some rs := by
  intro data
  induction data with
  | nil => exact fun _ _ => ⟨[], rfl⟩
  | cons row rest ih =>
      intro k h
      obtain ⟨h5, hv⟩ := h row (List.mem_cons_self row rest)
      obtain ⟨r, hr⟩ := Option.isSome_iff_exists.mp (comp_row_isSome hb b k row h5 hv)
      obtain ⟨rs, hrs⟩ := ih (k + 1) fun x hx => h x (List.mem_cons_of_mem row hx)
      exact ⟨r :: rs, by rw [comp_rows_cons, hr, hrs]; rfl⟩

/-- A successful row loop produces one table row per data row, each built by
the row builder at its own index. -/
theorem comp_rows_getElem (hb : Bool) (b : Nat) :
    ∀ (data : List (List String)) (k : Nat) (rs : List CmpRow),
      comp_rows hb b k data = some rs →
      rs.length = data.length ∧
        ∀ i : Nat, rs[i]? = (data[i]?).bind (comp_row hb b (k + i)) := by
  intro data
  induction data with
  | nil =>
      intro k rs h
      simp only [comp_rows, Option.some.injEq] at h
      subst h
      exact ⟨rfl, fun i => by simp⟩
  | cons row rest ih =>
      intro k rs h
      rw [comp_rows_cons] at h
      cases hr : comp_row hb b k row with
      | none => rw [hr] at h; simp at h
      | some r =>
          rw [hr] at h
          cases hrs : comp_rows hb b (k + 1) rest with
          | none => rw [hrs] at h; simp at h
          | some rs2 =>
              rw [hrs] at h
              simp only [Option.some_bind, Option.some.injEq] at h
              subst h
              obtain ⟨hl, hg⟩ := ih (k + 1) rs2 hrs
              refine ⟨by simp [hl], ?_⟩
              intro i
              cases i with
              | zero => simp [hr]
              | succ i =>
                  rw [show k + (i + 1) = k + 1 + i from by omega]
                  simpa using hg i

/-- Evaluation of the best-index computation when highlighting is on and
the rows parse. -/
theorem comp_best_idx_true (data : List (List String)) (vals : List ℚ)
    (hne : data ≠ []) (hvals : mapMO rowR2 data = some vals) :
    comp_best_idx data true = some (vals.findIdx fun v => v == listMax vals) := by
  have he : data.isEmpty = false := by
    cases data with
    | nil => exact absurd rfl hne
    | cons a t => rfl
  simp [comp_best_idx, he, hvals]

/-- Without highlighting the best index stays at its initial value 0. -/
theorem comp_best_idx_false (data : List (List String)) :
    comp_best_idx data false = some 0 := by
  simp [comp_best_idx]

/-- A list on which a predicate holds at exactly one position has count
one. -/
theorem countP_eq_one_of_unique {α : Type} (p : α → Bool) :
    ∀ (l : List α) (b : Nat), b < l.length →
      (∀ i : Nat, i < l.length → ∀ x, l[i]? = some x → (p x = true ↔ i = b)) →
      l.countP p = 1 := by
  intro l
  induction l with
  | nil =>
      intro b hb _
      exact absurd hb (by simp)
  | cons a t ih =>
      intro b hb hchar
      cases b with
      | zero =>
          have hpa : p a = true := (hchar 0 (by simp) a (by simp)).mpr rfl
          have ht : t.countP p = 0 := by
            refine List.countP_eq_zero.mpr ?_
            intro x hx hpx
            obtain ⟨i, hi, hxi⟩ := List.mem_iff_getElem.mp hx
            have h0 : (i + 1) = 0 := by
              refine (hchar (i + 1) (by simp; omega) x ?_).mp hpx
              simp only [List.getElem?_cons_succ]
              rw [List.getElem?_eq_getElem hi, hxi]
            exact absurd h0 (by omega)
          rw [List.countP_cons_of_pos _ _ hpa, ht]
      | succ b =>
          have hpa : p a = false := by
            cases hp : p a with
            | false => rfl
            | true =>
                have h0 := (hchar 0 (by simp) a (by simp)).mp hp
                exact absurd h0 (by omega)
          rw [List.countP_cons_of_neg _ _ (by simp [hpa])]
          refine ih b (by simpa using hb) ?_
          intro i hi x hxi
          have hc := hchar (i + 1) (by simp; omega) x (by simpa using hxi)
          constructor
          · intro hp
            have := hc.mp hp
            omega
          · intro hib
            exact hc.mpr (by omega)


/-- C8: on non-empty data whose rows have at least five cells and whose
second cell parses as a float (after replacing the Unicode minus sign),
comparison_table_section with highlight_best=True succeeds and highlights
exactly one row, the earliest row whose R-squared equals the maximum; with
highlight_best=False no row is highlighted; and a row badge is green exactly
when its parsed R-squared exceeds 0.9. -/
theorem comparison_table_highlights_best (title description : String)
    (data : List (List String))
    (hne : data ≠ [])
    (hcells : ∀ row ∈ data, 5 ≤ row.length ∧ (rowR2 row).isSome) :
    (comparison_table_section title description data true).isSome = true
    ∧ (∃ vals b, mapMO rowR2 data = some vals
        ∧ b < data.length
        ∧ vals[b]? = some (listMax vals)
        ∧ (∀ j : Nat, ∀ w, vals[j]? = some w → w ≤ listMax vals)
        ∧ (∀ j : Nat, j < b → vals[j]? ≠ some (listMax vals))
        ∧ (∃ t, comparison_table_section title description data true = some t
            ∧ t.rows.length = data.length
            ∧ (∀ i : Nat, i < data.length →
                ((t.rows[i]?).map CmpRow.background =
                    some (if i = b then rxColor "green" 2 else "transparent")
                  ∧ (t.rows[i]?).map CmpRow.trophy = some (decide (i = b))
                  ∧ (t.rows[i]?).map CmpRow.r2Color =
                      (vals[i]?).map fun v => if v > 9/10 then "green" else "gray"))
            ∧ t.rows.countP (fun r => r.background == rxColor "green" 2) = 1))
    ∧ (∃ t0, comparison_table_section title description data false = some t0
        ∧ ∀ r ∈ t0.rows, r.background = "transparent" ∧ r.fontWeight = "normal"
            ∧ r.trophy = false) := by
  obtain ⟨vals, hvals⟩ :=
    mapMO_exists_of_isSome rowR2 data fun a ha => (hcells a ha).2
  have hlen : vals.length = data.length := mapMO_length rowR2 hvals
  have hvne : vals ≠ [] := by
    intro hv
    apply hne
    cases hd : data with
    | nil => rfl
    | cons a t =>
        rw [hd] at hlen
        rw [hv] at hlen
        simp at hlen
  have hmem : listMax vals ∈ vals := listMax_mem hvne
  have hbl : vals.findIdx (fun v => v == listMax vals) < vals.length :=
    List.findIdx_lt_length_of_exists ⟨listMax vals, hmem, by simp⟩
  have hbv : vals[vals.findIdx (fun v => v == listMax vals)]? = some (listMax vals) := by
    rw [List.getElem?_eq_getElem hbl]
    exact congrArg some
      (by simpa using @List.findIdx_getElem _ (fun v => v == listMax vals) vals hbl)
  have hub : ∀ j : Nat, ∀ w, vals[j]? = some w → w ≤ listMax vals := by
    intro j w hj
    obtain ⟨hjl, hje⟩ := List.getElem?_eq_some.mp hj
    exact le_listMax (hje ▸ List.getElem_mem hjl)
  have hlt : ∀ j : Nat, j < vals.findIdx (fun v => v == listMax vals) →
      vals[j]? ≠ some (listMax vals) := by
    intro j hj heq
    have hjl : j < vals.length := lt_trans hj hbl
    rw [List.getElem?_eq_getElem hjl] at heq
    have he := Option.some.inj heq
    have hpf := List.not_of_lt_findIdx hj
    rw [he] at hpf
    simp at hpf
  have hbd : vals.findIdx (fun v => v == listMax vals) < data.length := hlen ▸ hbl
  have hbi := comp_best_idx_true data vals hne hvals
  obtain ⟨rows, hrows⟩ :=
    comp_rows_exists true (vals.findIdx fun v => v == listMax vals) data 0 hcells
  have hct : comparison_table_section title description data true =
      some { title := title, description := description,
             header := ["Model", "R²", "RMSE", "MAE", "Notes"], rows := rows } := by
    simp only [comparison_table_section, hbi, hrows]
  obtain ⟨hrl, hrg⟩ :=
    comp_rows_getElem true (vals.findIdx fun v => v == listMax vals) data 0 rows hrows
  have hfields : ∀ i : Nat, i < data.length →
      ((rows[i]?).map CmpRow.background =
          some (if i = vals.findIdx (fun v => v == listMax vals) then rxColor "green" 2
                else "transparent")
        ∧ (rows[i]?).map CmpRow.trophy =
            some (decide (i = vals.findIdx fun v => v == listMax vals))
        ∧ (rows[i]?).map CmpRow.r2Color =
            (vals[i]?).map fun v => if v > 9/10 then "green" else "gray") := by
    intro i hi
    obtain ⟨row_i, hdi⟩ : ∃ r, data[i]? = some r := by
      rw [List.getElem?_eq_getElem hi]
      exact ⟨_, rfl⟩
    obtain ⟨hdl, hde⟩ := List.getElem?_eq_some.mp hdi
    obtain ⟨h5i, hvi⟩ := hcells row_i (hde ▸ List.getElem_mem hdl)
    have hvali : vals[i]? = rowR2 row_i := by
      rw [mapMO_getElem? rowR2 hvals i, hdi, Option.some_bind]
    obtain ⟨v, hv0⟩ := Option.isSome_iff_exists.mp hvi
    have hvali2 : vals[i]? = some v := hvali.trans hv0
    have h0 := List.getElem?_eq_getElem (l := row_i) (n := 0) (by omega)
    have h1 := List.getElem?_eq_getElem (l := row_i) (n := 1) (by omega)
    have h2 := List.getElem?_eq_getElem (l := row_i) (n := 2) (by omega)
    have h3 := List.getElem?_eq_getElem (l := row_i) (n := 3) (by omega)
    have h4 := List.getElem?_eq_getElem (l := row_i) (n := 4) (by omega)
    have hv1 := hv0
    rw [rowR2, h1, Option.some_bind] at hv1
    have hre := comp_row_eq true (vals.findIdx fun v => v == listMax vals) i row_i
      _ _ _ _ _ v h0 h1 h2 h3 h4 hv1
    have hri := hrg i
    rw [hdi, Option.some_bind, Nat.zero_add, hre] at hri
    by_cases hib : i = vals.findIdx fun v => v == listMax vals
    · subst hib
      refine ⟨?_, ?_, ?_⟩ <;> simp [hri, hvali2]
    · have hbe : (i == vals.findIdx fun v => v == listMax vals) = false :=
        beq_eq_false_iff_ne.mpr hib
      refine ⟨?_, ?_, ?_⟩ <;> simp [hri, hvali2, hbe, hib]
  have hcount : rows.countP (fun r => r.background == rxColor "green" 2) = 1 := by
    refine countP_eq_one_of_unique _ rows (vals.findIdx fun v => v == listMax vals)
      (by rw [hrl]; exact hbd) ?_
    intro i hi x hxi
    have hi2 : i < data.length := hrl ▸ hi
    have hbg := (hfields i hi2).1
    rw [hxi] at hbg
    simp only [Option.map_some', Option.some.injEq] at hbg
    constructor
    · intro hp
      by_cases hib : i = vals.findIdx fun v => v == listMax vals
      · exact hib
      · exfalso
        rw [if_neg hib] at hbg
        rw [hbg] at hp
        exact absurd hp (by decide)
    · intro hib
      rw [if_pos hib] at hbg
      simp [hbg]
  obtain ⟨rows0, hrows0⟩ := comp_rows_exists false 0 data 0 hcells
  have hct0 : comparison_table_section title description data false =
      some { title := title, description := description,
             header := ["Model", "R²", "RMSE", "MAE", "Notes"], rows := rows0 } := by
    simp only [comparison_table_section, comp_best_idx_false, hrows0]
  obtain ⟨hrl0, hrg0⟩ := comp_rows_getElem false 0 data 0 rows0 hrows0
  have hall0 : ∀ r ∈ rows0,
      r.background = "transparent" ∧ r.fontWeight = "normal" ∧ r.trophy = false := by
    intro r hr
    obtain ⟨i, hil, hie⟩ := List.mem_iff_getElem.mp hr
    have hri2 : rows0[i]? = some r := by
      rw [List.getElem?_eq_getElem hil, hie]
    have hi2 : i < data.length := hrl0 ▸ hil
    obtain ⟨row_i, hdi⟩ : ∃ x, data[i]? = some x := by
      rw [List.getElem?_eq_getElem hi2]
      exact ⟨_, rfl⟩
    obtain ⟨hdl, hde⟩ := List.getElem?_eq_some.mp hdi
    obtain ⟨h5i, hvi⟩ := hcells row_i (hde ▸ List.getElem_mem hdl)
    obtain ⟨v, hv0⟩ := Option.isSome_iff_exists.mp hvi
    have h0 := List.getElem?_eq_getElem (l := row_i) (n := 0) (by omega)
    have h1 := List.getElem?_eq_getElem (l := row_i) (n := 1) (by omega)
    have h2 := List.getElem?_eq_getElem (l := row_i) (n := 2) (by omega)
    have h3 := List.getElem?_eq_getElem (l := row_i) (n := 3) (by omega)
    have h4 := List.getElem?_eq_getElem (l := row_i) (n := 4) (by omega)
    have hv1 := hv0
    rw [rowR2, h1, Option.some_bind] at hv1
    have hre := comp_row_eq false 0 i row_i _ _ _ _ _ v h0 h1 h2 h3 h4 hv1
    have hri := hrg0 i
    rw [hdi, Option.some_bind, Nat.zero_add, hre, hri2] at hri
    have he := Option.some.inj hri
    rw [he]
    simp
  refine ⟨by rw [hct]; rfl,
    ⟨vals, vals.findIdx fun v => v == listMax vals, hvals, hbd, hbv, hub, hlt,
      ⟨_, hct, hrl, hfields, hcount⟩⟩,
    ⟨_, hct0, hall0⟩⟩

theorem comparison_table_highlights_best_witness :
    (comparison_table_section
      "Traditional Machine Learning: Non-Linear Methods"
      "Moving beyond linear assumptions, we test kernel-based and tree-based methods."
      [["Support Vector Regression (SVR)", "0.986", "$59.93", "$43.77",
        "GridSearch: C=100, gamma=0.01"],
       ["Random Forest", "0.986", "$59.93", "$43.77", "500 trees, depth=20, 1620 CV fits"],
       ["XGBoost", "0.973", "$82.67", "$51.11", "Underperformed - possible overfitting"]]
      true).isSome = true :=
  (comparison_table_highlights_best
    "Traditional Machine Learning: Non-Linear Methods"
    "Moving beyond linear assumptions, we test kernel-based and tree-based methods."
    [["Support Vector Regression (SVR)", "0.986", "$59.93", "$43.77",
      "GridSearch: C=100, gamma=0.01"],
     ["Random Forest", "0.986", "$59.93", "$43.77", "500 trees, depth=20, 1620 CV fits"],
     ["XGBoost", "0.973", "$82.67", "$51.11", "Underperformed - possible overfitting"]]
    (by decide) (by decide)).1
